import Mathlib

/-
  Verification of the Dashboard-ATCS traffic-monitoring pipeline.

  The repository contains several near-identical Python variants of the same
  pipeline (app.py, main.py, worker1.py, video_processor.py, index.py).  Each
  variant's statistics update, statistics query, line-crossing detection,
  track-history maintenance, reconnect loop and worker supervisor are embedded
  below as pure Lean functions.  MongoDB's `update_one` is modelled explicitly:
  a document store plus the documented server-side rule that an update whose
  `$inc` path also occurs among its `$setOnInsert` paths is rejected
  (ConflictingUpdateOperators) without writing anything — the rule worker1.py's
  own comments describe as the reason its update command removes the
  incremented field from the initialisation list.
-/

/-- The four monitored vehicle classes (values of CLASS_NAMES_MAP). -/
inductive VClass where
  | car
  | motorcycle
  | bus
  | truck
deriving DecidableEq, Repr

/-- Field-name suffix of a monitored class, as used in "total_<name>". -/
def vClassName : VClass → String
  | .car => "car"
  | .motorcycle => "motorcycle"
  | .bus => "bus"
  | .truck => "truck"

/-- CLASS_NAMES_MAP from the sources: COCO ids 2,3,5,7 are monitored. -/
def CLASS_NAMES_MAP (classId : Nat) : Option VClass :=
  match classId with
  | 2 => some VClass.car
  | 3 => some VClass.motorcycle
  | 5 => some VClass.bus
  | 7 => some VClass.truck
  | _ => none

/-- A daily-statistics document.  Fields are the union of the fields the
different variants write; absent numeric fields are represented by their
MongoDB read default (0 for counters via `$inc`/`.get(..., 0)`, `[]` for the
speeds array), absent metadata by `none`. -/
structure StatsDoc where
  camera_id : String
  date : String
  total_car : Int
  total_motorcycle : Int
  total_bus : Int
  total_truck : Int
  speeds : List ℚ
  guid : Option String
  average_speed : Option ℚ
  processed_at : Option ℚ
  created_at : Option ℚ
deriving DecidableEq, Repr

/-- Read the counter field of a document for one monitored class. -/
def counterOf (d : StatsDoc) (v : VClass) : Int :=
  match v with
  | .car => d.total_car
  | .motorcycle => d.total_motorcycle
  | .bus => d.total_bus
  | .truck => d.total_truck

/-- `$inc` of one class counter by 1, all other fields untouched. -/
def incCounter (d : StatsDoc) (v : VClass) : StatsDoc :=
  match v with
  | .car => { d with total_car := d.total_car + 1 }
  | .motorcycle => { d with total_motorcycle := d.total_motorcycle + 1 }
  | .bus => { d with total_bus := d.total_bus + 1 }
  | .truck => { d with total_truck := d.total_truck + 1 }

/-- Shape of the JSON statistics response of the /stats endpoints. -/
structure StatsResponse where
  total_car : Int
  total_motorcycle : Int
  total_bus : Int
  total_truck : Int
  average_speed : ℚ
deriving DecidableEq, Repr

/-- Rounding to two decimal places, as `round(x, 2)` produces for the
non-tie inputs used in this development. -/
def round2 (q : ℚ) : ℚ :=
  (round (q * 100) : ℤ) / 100

/-- A tracked centre position (int(x), int(y)). -/
abbrev Pos : Type := Int × Int

/-- The line-crossing rule of app.py line 123 / video_processor.py line 169:
(prev_y < line_y and curr_y >= line_y) or (prev_y > line_y and curr_y <= line_y). -/
def crossingRule (prevY currY lineY : Int) : Bool :=
  (decide (prevY < lineY) && decide (currY ≥ lineY)) ||
    (decide (prevY > lineY) && decide (currY ≤ lineY))

/-- The last two entries of a list (track[-2], track[-1]), if it has ≥ 2. -/
def last2 (l : List α) : Option (α × α) :=
  match l.reverse with
  | b :: a :: _ => some (a, b)
  | _ => none

/-- Python int() truncation toward zero on an exact rational value. -/
def pyInt (q : ℚ) : Int :=
  if 0 ≤ q then ⌊q⌋ else ⌈q⌉

/-- Error message of a MongoDB update rejected for a `$inc`/`$setOnInsert`
path conflict. -/
def conflictMsg (f : String) : String :=
  "ConflictingUpdateOperators at " ++ f

namespace App

/-- app.py's daily_stats collection, keyed by the _id string "cid_date". -/
abbrev Store : Type := String → Option StatsDoc

/-- The `$setOnInsert` paths of app.py's update_daily_stats (lines 167-172). -/
def soiFields : List String :=
  ["camera_id", "date", "processed_at",
   "total_car", "total_motorcycle", "total_bus", "total_truck"]

/-- The document app.py's upsert would insert were the command accepted:
`$setOnInsert` defaults, then `$inc` and `$push` applied to the new document. -/
def freshDoc (cid today : String) (v : VClass) (speed now : ℚ) : StatsDoc :=
  incCounter
    { camera_id := cid, date := today
      total_car := 0, total_motorcycle := 0, total_bus := 0, total_truck := 0
      speeds := [speed], guid := none, average_speed := none
      processed_at := some now, created_at := none } v

/-- app.py lines 148-175: a single update_one with upsert combining
`$inc total_<class>`, `$push speeds` and `$setOnInsert` of camera/date
metadata plus all four zeroed counters.  `today`/`now` stand for
datetime.now(); `speed` is the km/h value pushed.  The incremented counter
path also appears among the `$setOnInsert` paths, so MongoDB rejects the
command; the raised error is returned as `Except.error`. -/
def update_daily_stats (store : Store) (cid today : String) (classId : Nat)
    (speed now : ℚ) : Except String Store :=
  match CLASS_NAMES_MAP classId with
  | none => Except.ok store
  | some v =>
    let docId := cid ++ "_" ++ today
    let incField := "total_" ++ vClassName v
    if incField ∈ soiFields then
      Except.error (conflictMsg incField)
    else
      Except.ok (fun k =>
        if k = docId then
          match store docId with
          | some d => some { incCounter d v with speeds := d.speeds ++ [speed] }
          | none => some (freshDoc cid today v speed now)
        else store k)

/-- app.py lines 226-247 (/stats/<camera_id>): look the day's document up by
_id; on a hit return the four counters (defaulting to 0) and the mean of the
stored speeds (0 with no samples) rounded to two decimals; on a miss return
the all-zero response rather than an error. -/
def get_stats (store : Store) (cid today : String) : StatsResponse :=
  match store (cid ++ "_" ++ today) with
  | some d =>
    let avg : ℚ := if d.speeds.isEmpty then 0 else d.speeds.sum / d.speeds.length
    { total_car := d.total_car, total_motorcycle := d.total_motorcycle
      total_bus := d.total_bus, total_truck := d.total_truck
      average_speed := round2 avg }
  | none =>
    { total_car := 0, total_motorcycle := 0, total_bus := 0, total_truck := 0
      average_speed := 0 }

/-- app.py lines 108-111: append the new centre to the track, then drop the
oldest sample once the length exceeds 30. -/
def trackUpdate (track : List Pos) (c : Pos) : List Pos :=
  let t := track ++ [c]
  if 30 < t.length then t.tail else t

/-- app.py lines 119-123: with at least two samples, apply the crossing rule
to track[-2] and track[-1]; with fewer, no crossing. -/
def detectCrossing (track : List Pos) (lineY : Int) : Bool :=
  match last2 track with
  | some (p, q) => crossingRule p.2 q.2 lineY
  | none => false

/-- app.py line 81: default the measured fps to 25 when the source reports 0. -/
def fpsOrDefault (fps : Int) : Int :=
  if fps = 0 then 25 else fps

/-- app.py line 127: the assumed calibration constant (10 pixels = 1 meter). -/
noncomputable def pixel_to_meter : ℝ := 0.1

/-- app.py line 125: Euclidean pixel distance between track[-2] and
track[-1]. -/
noncomputable def distance_pixels (prev curr : Pos) : ℝ :=
  Real.sqrt (((curr.1 - prev.1 : ℤ) : ℝ) ^ 2 + ((curr.2 - prev.2 : ℤ) : ℝ) ^ 2)

/-- app.py line 128: speed_kmh = (distance_pixels * pixel_to_meter * fps) * 3.6. -/
noncomputable def speed_kmh (prev curr : Pos) (fps : Int) : ℝ :=
  (distance_pixels prev curr * pixel_to_meter * (fps : ℝ)) * 3.6

end App

/-- MongoDB update_one with upsert on a collection queried by a predicate:
modify the first matching document; with no match, insert `ins`. -/
def upsertFirst (p : StatsDoc → Bool) (f : StatsDoc → StatsDoc)
    (ins : StatsDoc) : List StatsDoc → List StatsDoc
  | [] => [ins]
  | d :: ds => if p d then f d :: ds else d :: upsertFirst p f ins ds

/-- MongoDB find_one on a collection queried by a predicate. -/
def findOne (p : StatsDoc → Bool) (coll : List StatsDoc) : Option StatsDoc :=
  coll.find? p

/-- The query predicate used by the variants keyed on two fields. -/
def docMatches (cid today : String) (d : StatsDoc) : Bool :=
  d.camera_id == cid && d.date == today

namespace Worker1

/-- worker1.py's stats_collection: documents looked up by camera_id and date
(no _id key scheme), so a plain list of documents. -/
abbrev Coll : Type := List StatsDoc

/-- The `$setOnInsert` paths of worker1.py's update command (lines 88-100):
guid/camera/date/average/created plus the initial counters with the
to-be-incremented field removed (lines 71-85). -/
def soiFields (v : VClass) : List String :=
  ["guid", "camera_id", "date", "average_speed", "created_at"] ++
    (["total_car", "total_motorcycle", "total_bus", "total_truck"].erase
      ("total_" ++ vClassName v))

/-- The document worker1.py's upsert inserts on a first write: query equality
fields, `$setOnInsert` values (guid, metadata, zeroed sibling counters), and
the `$inc`-created counter at 1. -/
def freshDoc (guid cid today : String) (now : ℚ) (v : VClass) : StatsDoc :=
  incCounter
    { camera_id := cid, date := today
      total_car := 0, total_motorcycle := 0, total_bus := 0, total_truck := 0
      speeds := [], guid := some guid, average_speed := some 0
      processed_at := none, created_at := some now } v

/-- worker1.py lines 50-106: one update_one with upsert, `$inc` of the class
counter and `$setOnInsert` of metadata plus the sibling counters only.  The
incremented path is absent from the `$setOnInsert` paths, so the command is
accepted.  The surrounding try/except swallows any error, hence a total
function.  `guid`/`now` stand for uuid4() and datetime.now(). -/
def update_daily_stats (coll : Coll) (cid today guid : String) (now : ℚ)
    (classId : Nat) : Coll :=
  match CLASS_NAMES_MAP classId with
  | none => coll
  | some v =>
    let incField := "total_" ++ vClassName v
    if incField ∈ soiFields v then coll
    else
      upsertFirst (docMatches cid today) (fun d => incCounter d v)
        (freshDoc guid cid today now v) coll

/-- Per-track loop state of worker1.py's process_camera_stream: the y-only
position history, the collection, and the number of record calls issued. -/
structure Run where
  track : List Int
  coll : Coll
  calls : Nat
deriving DecidableEq, Repr

/-- worker1.py lines 157-160: append int(y), then drop the oldest sample once
the length exceeds 2 — this variant's history bound is 2. -/
def trackUpdate (track : List Int) (y : Int) : List Int :=
  let t := track ++ [y]
  if 2 < t.length then t.tail else t

/-- worker1.py lines 153-168, one frame of one track: append int(y), trim the
history to 2 samples, and when the two samples descend across the line call
update_daily_stats and drop the history. -/
def processSample (cid today guid : String) (now : ℚ) (classId : Nat)
    (lineY : Int) (st : Run) (y : Int) : Run :=
  let t := trackUpdate st.track y
  match t with
  | [a, b] =>
    if a < lineY ∧ b ≥ lineY then
      { track := [],
        coll := update_daily_stats st.coll cid today guid now classId,
        calls := st.calls + 1 }
    else { st with track := t }
  | _ => { st with track := t }

/-- Run worker1.py's per-track loop over a sample sequence from a fresh
track and a given collection. -/
def runTrack (cid today guid : String) (now : ℚ) (classId : Nat)
    (lineY : Int) (coll : Coll) (ys : List Int) : Run :=
  ys.foldl (processSample cid today guid now classId lineY)
    { track := [], coll := coll, calls := 0 }

end Worker1

namespace MainPy

/-- main.py line 129: with at least two samples, report a crossing only when
track[-2][1] < line_y and track[-1][1] >= line_y (descending only). -/
def detectCrossing (track : List Pos) (lineY : Int) : Bool :=
  match last2 track with
  | some (p, q) => decide (p.2 < lineY) && decide (q.2 ≥ lineY)
  | none => false

end MainPy

namespace VideoProc

/-- video_processor.py's in-memory daily_stats counters. -/
abbrev Mem : Type := VClass → Int

/-- The document the first update_one of _update_daily_stats inserts when no
document matches (query equality fields plus `$setOnInsert` guid). -/
def initDoc (cid today : String) : StatsDoc :=
  { camera_id := cid, date := today
    total_car := 0, total_motorcycle := 0, total_bus := 0, total_truck := 0
    speeds := [], guid := some ("VIDEO-" ++ cid ++ "-" ++ today)
    average_speed := none, processed_at := none, created_at := none }

/-- video_processor.py lines 86-113: two separate update_one calls — first an
upsert that only `$setOnInsert`s a guid, then an upsert with `$inc` of the
class counter and `$set` of processed_at — followed by the in-memory counter
increment.  Not a single store operation.  The speed argument of the source
function is unused by its body. -/
def update_daily_stats (coll : List StatsDoc) (mem : Mem) (cid today : String)
    (now : ℚ) (classId : Nat) : List StatsDoc × Mem :=
  match CLASS_NAMES_MAP classId with
  | none => (coll, mem)
  | some v =>
    let coll1 := upsertFirst (docMatches cid today) (fun d => d)
      (initDoc cid today) coll
    let coll2 := upsertFirst (docMatches cid today)
      (fun d => { incCounter d v with processed_at := some now })
      { incCounter (initDoc cid today) v with processed_at := some now } coll1
    (coll2, fun w => if w = v then mem v + 1 else mem w)

/-- Per-track loop state of video_processor.py's _process_stream. -/
structure Run where
  track : List Pos
  coll : List StatsDoc
  mem : Mem
  calls : Nat

/-- video_processor.py lines 149-172, one frame of one track: append the
centre, trim to 30 samples, and with two or more samples apply the
two-direction crossing rule to the last two; on a crossing call
_update_daily_stats and reset the history to []. -/
def processSample (cid today : String) (now : ℚ) (classId : Nat)
    (lineY : Int) (st : Run) (c : Pos) : Run :=
  let t := App.trackUpdate st.track c
  match last2 t with
  | some (p, q) =>
    if crossingRule p.2 q.2 lineY then
      let r := update_daily_stats st.coll st.mem cid today now classId
      { track := [], coll := r.1, mem := r.2, calls := st.calls + 1 }
    else { st with track := t }
  | none => { st with track := t }

/-- Run video_processor.py's per-track loop over a sample sequence from a
fresh track, empty collection and zeroed in-memory counters. -/
def runTrack (cid today : String) (now : ℚ) (classId : Nat) (lineY : Int)
    (cs : List Pos) : Run :=
  cs.foldl (processSample cid today now classId lineY)
    { track := [], coll := [], mem := fun _ => 0, calls := 0 }

end VideoProc

namespace App

/-- Loop state of app.py's process_camera_stream for one track: the position
history, the store, the number of update_daily_stats calls issued, and
whether an uncaught store error aborted the connection (app.py line 140:
the exception leaves the frame loop, so the remaining frames of the
connection are dropped and line 133's history reset is skipped). -/
structure Run where
  track : List Pos
  store : Store
  calls : Nat
  aborted : Bool

/-- app.py lines 104-133, one frame of one track: append the centre, trim to
30 samples, and with two or more samples apply the crossing rule to the last
two; on a crossing call update_daily_stats (the km/h value the source
computes at lines 125-128 enters only as the pushed `speed` argument, whose
numeric formula is treated separately) and, when the call returns, drop the
history; when it raises, abort the connection with the history kept. -/
def processSample (cid today : String) (classId : Nat) (speed now : ℚ)
    (lineY : Int) (st : Run) (c : Pos) : Run :=
  if st.aborted then st
  else
    let t := trackUpdate st.track c
    match last2 t with
    | some (p, q) =>
      if crossingRule p.2 q.2 lineY then
        match update_daily_stats st.store cid today classId speed now with
        | Except.ok s' =>
          { track := [], store := s', calls := st.calls + 1, aborted := false }
        | Except.error _ =>
          { track := t, store := st.store, calls := st.calls + 1, aborted := true }
      else { st with track := t }
    | none => { st with track := t }

/-- Run app.py's per-track loop over a sample sequence from a fresh track and
a given store. -/
def runTrack (cid today : String) (classId : Nat) (speed now : ℚ)
    (lineY : Int) (store : Store) (cs : List Pos) : Run :=
  cs.foldl (processSample cid today classId speed now lineY)
    { track := [], store := store, calls := 0, aborted := false }

/-- app.py lines 251-266 (start_all_camera_processing): for every camera
record, read camera_id (possibly absent) and start one thread when the id is
truthy and not yet in the processing_threads registry; returns the updated
registry key list. -/
def start_all (cams : List (Option String)) (running : List String) :
    List String :=
  cams.foldl
    (fun acc c =>
      match c with
      | none => acc
      | some cid => if cid ≠ "" ∧ cid ∉ acc then acc ++ [cid] else acc)
    running

end App

namespace IndexPy

/-- Result of index.py's /stats endpoint: either the stored document
returned as-is, or the all-zero default response. -/
inductive StatsResult where
  | doc (d : StatsDoc)
  | empty (r : StatsResponse)
deriving DecidableEq, Repr

/-- index.py lines 196-216: find_one by camera_id and date; on a hit return
the stored document unchanged, on a miss the all-zero response with
average_speed 0.0 rather than an error. -/
def get_stats (coll : List StatsDoc) (cid today : String) : StatsResult :=
  match findOne (docMatches cid today) coll with
  | some d => StatsResult.doc d
  | none =>
    StatsResult.empty
      { total_car := 0, total_motorcycle := 0, total_bus := 0, total_truck := 0
        average_speed := 0 }

end IndexPy

namespace Connect

/-- State of app.py's source-acquisition loop (lines 69-75): how many open
attempts were made, whether the stream was ever opened, how many statistics
records were issued, and the log of backoff sleeps (seconds). -/
structure State where
  attempts : Nat
  streaming : Bool
  records : Nat
  sleeps : List Nat
deriving DecidableEq, Repr

/-- The initial loop state. -/
def init : State :=
  { attempts := 0, streaming := false, records := 0, sleeps := [] }

/-- One iteration of the outer while-True loop while not yet streaming: open
the source (the oracle `opens` says whether attempt n succeeds); on failure
sleep the fixed 10-second backoff and retry; on success enter streaming.
Statistics are only recorded from within the streaming phase. -/
def step (opens : Nat → Bool) (s : State) : State :=
  if s.streaming then s
  else if opens s.attempts then
    { s with streaming := true, attempts := s.attempts + 1 }
  else
    { s with attempts := s.attempts + 1, sleeps := s.sleeps ++ [10] }

/-- The loop state after n iterations. -/
def run (opens : Nat → Bool) (n : Nat) : State :=
  (step opens)^[n] init

end Connect

lemma last2_append (rest : List α) (p c : α) :
    last2 (rest ++ [p, c]) = some (p, c) := by
  simp [last2, List.reverse_append]

lemma last2_eq_none (l : List α) (h : l.length < 2) : last2 l = none := by
  match l, h with
  | [], _ => rfl
  | [_], _ => rfl

/-- Claim C2: app.py's detector (lines 119-123) reports a crossing on a track
of at least two samples exactly per the two-direction rule and never with
fewer; main.py's variant (line 129) applies only the descending half of the
rule. -/
theorem detector_rule_by_variant :
    (∀ (rest : List Pos) (p c : Pos) (lineY : Int),
        App.detectCrossing (rest ++ [p, c]) lineY = crossingRule p.2 c.2 lineY)
  ∧ (∀ (t : List Pos) (lineY : Int), t.length < 2 →
        App.detectCrossing t lineY = false)
  ∧ (∀ (rest : List Pos) (p c : Pos) (lineY : Int),
        MainPy.detectCrossing (rest ++ [p, c]) lineY =
          (decide (p.2 < lineY) && decide (c.2 ≥ lineY)))
  ∧ (∀ (t : List Pos) (lineY : Int), t.length < 2 →
        MainPy.detectCrossing t lineY = false) := by
  refine ⟨fun rest p c lineY => ?_, fun t lineY h => ?_,
    fun rest p c lineY => ?_, fun t lineY h => ?_⟩
  · rw [App.detectCrossing, last2_append]
  · rw [App.detectCrossing, last2_eq_none t h]
  · rw [MainPy.detectCrossing, last2_append]
  · rw [MainPy.detectCrossing, last2_eq_none t h]

/-- Claim C2, counterexample: on an ascending pass (y 250 → 230 across
line_y = 240) the stated rule reports a crossing but main.py's detector,
cited for the claim, reports none. -/
theorem main_detector_misses_ascending :
    crossingRule 250 230 240 = true
  ∧ MainPy.detectCrossing [(0, 250), (0, 230)] 240 = false := by
  decide

/-- Claim C2, witness for the amended statement. -/
theorem detector_rule_by_variant_witness :
    App.detectCrossing [(0, 200), (0, 260)] 240 = crossingRule 200 260 240
  ∧ MainPy.detectCrossing [(0, 5)] 240 = false :=
  ⟨detector_rule_by_variant.1 [] (0, 200) (0, 260) 240,
   detector_rule_by_variant.2.2.2 [(0, 5)] 240 (by decide)⟩

/-- Claim C4: one history update appends the new sample and evicts the oldest
exactly when the bound would be exceeded: the result length is
min (n+1) K (hence ≤ K) and the result is a suffix of the old samples plus
the new one, i.e. the most recent samples in arrival order.  K = 30 for
app.py (lines 108-111) and K = 2 for worker1.py (lines 157-160), both within
the claimed bound of 30. -/
theorem track_bound_fifo (t : List Pos) (c : Pos) (u : List Int) (y : Int)
    (h : t.length ≤ 30) (h2 : u.length ≤ 2) :
    (App.trackUpdate t c).length ≤ 30
  ∧ (App.trackUpdate t c).length = min (t.length + 1) 30
  ∧ App.trackUpdate t c <:+ t ++ [c]
  ∧ (Worker1.trackUpdate u y).length ≤ 30
  ∧ (Worker1.trackUpdate u y).length = min (u.length + 1) 2
  ∧ Worker1.trackUpdate u y <:+ u ++ [y] := by
  rw [App.trackUpdate, Worker1.trackUpdate]
  simp only [List.length_append, List.length_cons, List.length_nil]
  constructor
  · split
    · simp; omega
    · simp; omega
  constructor
  · split
    · simp; omega
    · simp; omega
  constructor
  · split
    · exact List.IsSuffix.trans (List.tail_suffix _) (List.suffix_refl _)
    · exact List.suffix_refl _
  constructor
  · split
    · simp; omega
    · simp; omega
  constructor
  · split
    · simp; omega
    · simp; omega
  · split
    · exact List.IsSuffix.trans (List.tail_suffix _) (List.suffix_refl _)
    · exact List.suffix_refl _

/-- Claim C4, witness at a full 30-sample history and a full 2-sample one. -/
theorem track_bound_fifo_witness :
    (App.trackUpdate (List.replicate 30 ((0 : Int), (0 : Int))) (1, 1)).length ≤ 30
  ∧ (App.trackUpdate (List.replicate 30 ((0 : Int), (0 : Int))) (1, 1)).length =
      min ((List.replicate 30 ((0 : Int), (0 : Int))).length + 1) 30
  ∧ App.trackUpdate (List.replicate 30 ((0 : Int), (0 : Int))) (1, 1) <:+
      List.replicate 30 ((0 : Int), (0 : Int)) ++ [(1, 1)]
  ∧ (Worker1.trackUpdate [5, 6] 7).length ≤ 30
  ∧ (Worker1.trackUpdate [5, 6] 7).length = min (([5, 6] : List Int).length + 1) 2
  ∧ Worker1.trackUpdate [5, 6] 7 <:+ ([5, 6] : List Int) ++ [7] :=
  track_bound_fifo (List.replicate 30 ((0 : Int), (0 : Int))) (1, 1) [5, 6] 7
    (by decide) (by decide)

/-- Claim C5: on a 480-high frame with line position 1/2 the calibration line
sits at y = 240; a source-reported fps of 0 defaults to 25; a track moving
from y = 200 to y = 260 in consecutive samples crosses descending
(prev < line ≤ curr); its pixel displacement is 60 and app.py's estimate
(distance * 0.1 * fps * 3.6) is 540 km/h. -/
theorem speed_formula_scenario :
    pyInt ((480 : ℚ) * (1 / 2)) = 240
  ∧ App.fpsOrDefault 0 = 25
  ∧ crossingRule 200 260 240 = true
  ∧ (200 : Int) < 240 ∧ (240 : Int) ≤ 260
  ∧ App.distance_pixels (100, 200) (100, 260) = 60
  ∧ App.speed_kmh (100, 200) (100, 260) (App.fpsOrDefault 0) = 540 := by
  have hd : App.distance_pixels (100, 200) (100, 260) = 60 := by
    rw [App.distance_pixels]
    norm_num
    rw [show (3600 : ℝ) = 60 ^ 2 by norm_num, Real.sqrt_sq (by norm_num)]
  refine ⟨by norm_num [pyInt], by decide, by decide, by decide, by decide, hd, ?_⟩
  rw [App.speed_kmh, hd]
  norm_num [App.pixel_to_meter, App.fpsOrDefault]

/-- Claim C7: a track oscillating y = 230 → 250 → 230 → 250 around
line_y = 240 triggers the crossing rule on both the descending and the
ascending pair, so the crossing/reset logic is meant to count the same track
repeatedly.  In app.py's pipeline, the one cited by the claim, this does not
happen: the first crossing's record call raises the update conflict of
claim C1, the exception aborts the connection, the history is never reset,
no further event of the sequence is counted and nothing is stored — one
record call in total, not more than one.  The same loop logic with the
working writer (video_processor.py lines 149-172) shows the claimed
behaviour: two record calls, the history reset after each, the day's car
counter at 2. -/
theorem oscillation_abort_and_videoproc_double_count :
    crossingRule 230 250 240 = true
  ∧ crossingRule 250 230 240 = true
  ∧ (App.runTrack "1001" "D" 2 540 0 240 (fun _ => none)
      [(0, 230), (0, 250), (0, 230), (0, 250)]).calls = 1
  ∧ (App.runTrack "1001" "D" 2 540 0 240 (fun _ => none)
      [(0, 230), (0, 250), (0, 230), (0, 250)]).aborted = true
  ∧ (App.runTrack "1001" "D" 2 540 0 240 (fun _ => none)
      [(0, 230), (0, 250), (0, 230), (0, 250)]).track = [(0, 230), (0, 250)]
  ∧ (App.runTrack "1001" "D" 2 540 0 240 (fun _ => none)
      [(0, 230), (0, 250), (0, 230), (0, 250)]).store ("1001_D") = none
  ∧ (VideoProc.runTrack "cam" "D" 0 2 240
      [(0, 230), (0, 250), (0, 230), (0, 250)]).calls = 2
  ∧ 1 < (VideoProc.runTrack "cam" "D" 0 2 240
      [(0, 230), (0, 250), (0, 230), (0, 250)]).calls
  ∧ (VideoProc.runTrack "cam" "D" 0 2 240
      [(0, 230), (0, 250), (0, 230), (0, 250)]).coll =
      [{ camera_id := "cam", date := "D", total_car := 2, total_motorcycle := 0,
         total_bus := 0, total_truck := 0, speeds := [],
         guid := some ("VIDEO-cam-D"), average_speed := none,
         processed_at := some 0, created_at := none }]
  ∧ (VideoProc.runTrack "cam" "D" 0 2 240
      [(0, 230), (0, 250), (0, 230), (0, 250)]).mem VClass.car = 2
  ∧ (VideoProc.runTrack "cam" "D" 0 2 240
      [(0, 230), (0, 250), (0, 230), (0, 250)]).track = [] := by
  refine ⟨by decide, by decide, rfl, rfl, by decide, rfl, rfl, by decide,
    by decide, rfl, rfl⟩

/-- Claim C1: app.py's single update command (lines 162-175) puts the
incremented counter path inside its own `$setOnInsert` list, so the store
rejects the very first record call for a (camera, date) instead of atomically
creating the document — while worker1.py's repaired command (lines 50-106,
whose comments name this very conflict) is accepted: its first call produces
exactly one document with the incremented counter at 1 and the three sibling
counters at 0, and a second call for the same key leaves one document with
the counter at 2 (no lost update once the store applies each command
atomically). -/
theorem first_record_conflict_and_fixed_upsert :
    App.update_daily_stats (fun _ => none) "1001" "2025-10-12" 2 50 0 =
      Except.error (conflictMsg ("total_car"))
  ∧ Worker1.update_daily_stats [] "1001" "2025-10-12" "g1" 0 2 =
      [{ camera_id := "1001", date := "2025-10-12", total_car := 1,
         total_motorcycle := 0, total_bus := 0, total_truck := 0, speeds := [],
         guid := some ("g1"), average_speed := some 0, processed_at := none,
         created_at := some 0 }]
  ∧ Worker1.update_daily_stats
      (Worker1.update_daily_stats [] "1001" "2025-10-12" "g1" 0 2)
      "1001" "2025-10-12" "g2" 0 2 =
      [{ camera_id := "1001", date := "2025-10-12", total_car := 2,
         total_motorcycle := 0, total_bus := 0, total_truck := 0, speeds := [],
         guid := some ("g1"), average_speed := some 0, processed_at := none,
         created_at := some 0 }] :=
  ⟨rfl, by decide, by decide⟩

/-- Claim C3: a car track crossing the line exactly once (y 200 → 260,
line_y 240).  In app.py the single record call raises the update conflict of
claim C1, so the day's document is never written and — the exception skipping
line 133 — the track history is NOT cleared; the loop aborts the connection.
In worker1.py (lines 153-168) the same single crossing yields exactly one
record call, the counter at 1, and a cleared history. -/
theorem single_crossing_abort_and_worker1_count :
    (App.runTrack "1001" "D" 2 540 0 240 (fun _ => none)
        [(100, 200), (100, 260)]).calls = 1
  ∧ (App.runTrack "1001" "D" 2 540 0 240 (fun _ => none)
        [(100, 200), (100, 260)]).track = [(100, 200), (100, 260)]
  ∧ (App.runTrack "1001" "D" 2 540 0 240 (fun _ => none)
        [(100, 200), (100, 260)]).aborted = true
  ∧ (App.runTrack "1001" "D" 2 540 0 240 (fun _ => none)
        [(100, 200), (100, 260)]).store ("1001_D") = none
  ∧ (Worker1.runTrack "1001" "D" "g" 0 2 240 [] [200, 260]).calls = 1
  ∧ (Worker1.runTrack "1001" "D" "g" 0 2 240 [] [200, 260]).track = []
  ∧ (Worker1.runTrack "1001" "D" "g" 0 2 240 [] [200, 260]).coll =
      [{ camera_id := "1001", date := "D", total_car := 1,
         total_motorcycle := 0, total_bus := 0, total_truck := 0, speeds := [],
         guid := some ("g"), average_speed := some 0, processed_at := none,
         created_at := some 0 }] :=
  ⟨rfl, by decide, rfl, rfl, rfl, by decide, by decide⟩

/-- Claim C6, counterexample: with stored speed samples 1, 2, 2 the mean is
5/3, but app.py's /stats response carries round(5/3, 2) = 1.67, not the
exact quotient the claim states. -/
theorem avg_speed_rounded_counterexample :
    (App.get_stats
        (fun k => if k = "cam_2025-01-01" then
          some { camera_id := "cam", date := "2025-01-01", total_car := 3,
                 total_motorcycle := 0, total_bus := 0, total_truck := 0,
                 speeds := [1, 2, 2], guid := none, average_speed := none,
                 processed_at := none, created_at := none }
          else none)
        "cam" "2025-01-01").average_speed ≠ (5 : ℚ) / 3
  ∧ (App.get_stats
        (fun k => if k = "cam_2025-01-01" then
          some { camera_id := "cam", date := "2025-01-01", total_car := 3,
                 total_motorcycle := 0, total_bus := 0, total_truck := 0,
                 speeds := [1, 2, 2], guid := none, average_speed := none,
                 processed_at := none, created_at := none }
          else none)
        "cam" "2025-01-01").average_speed = (167 : ℚ) / 100 := by
  have h0 : (App.get_stats
      (fun k => if k = "cam_2025-01-01" then
        some { camera_id := "cam", date := "2025-01-01", total_car := 3,
               total_motorcycle := 0, total_bus := 0, total_truck := 0,
               speeds := [1, 2, 2], guid := none, average_speed := none,
               processed_at := none, created_at := none }
        else none)
      "cam" "2025-01-01").average_speed =
      round2 (List.sum [(1 : ℚ), 2, 2] / ((List.length [(1 : ℚ), 2, 2] : ℕ) : ℚ)) := rfl
  have h1 : round2 (List.sum [(1 : ℚ), 2, 2] / ((List.length [(1 : ℚ), 2, 2] : ℕ) : ℚ)) =
      167 / 100 := by
    rw [round2, round_eq]
    norm_num
  constructor
  · rw [h0, h1]
    norm_num
  · rw [h0, h1]

/-- Claim C6, amended: app.py's /stats (lines 223-247) returns the four
stored counters and the mean of the speed samples rounded to two decimals
(0 with no samples) when the day's document exists, and the all-zero
response rather than an error when it does not; index.py's variant (lines
196-216) returns the stored document unchanged on a hit and the same
all-zero default on a miss — composed with worker1's writer, a first record
is immediately visible to it. -/
theorem stats_query_semantics :
    (∀ (store : App.Store) (cid today : String) (d : StatsDoc),
        store (cid ++ "_" ++ today) = some d →
        App.get_stats store cid today =
          { total_car := d.total_car, total_motorcycle := d.total_motorcycle,
            total_bus := d.total_bus, total_truck := d.total_truck,
            average_speed :=
              round2 (if d.speeds.isEmpty then 0
                      else d.speeds.sum / d.speeds.length) })
  ∧ (∀ (store : App.Store) (cid today : String),
        store (cid ++ "_" ++ today) = none →
        App.get_stats store cid today = ⟨0, 0, 0, 0, 0⟩)
  ∧ (∀ (coll : List StatsDoc) (cid today : String) (d : StatsDoc),
        findOne (docMatches cid today) coll = some d →
        IndexPy.get_stats coll cid today = IndexPy.StatsResult.doc d)
  ∧ (∀ (coll : List StatsDoc) (cid today : String),
        findOne (docMatches cid today) coll = none →
        IndexPy.get_stats coll cid today =
          IndexPy.StatsResult.empty ⟨0, 0, 0, 0, 0⟩)
  ∧ (∀ (cid today guid : String) (now : ℚ),
        IndexPy.get_stats (Worker1.update_daily_stats [] cid today guid now 2)
            cid today =
          IndexPy.StatsResult.doc (Worker1.freshDoc guid cid today now VClass.car)) := by
  refine ⟨fun store cid today d h => ?_, fun store cid today h => ?_,
    fun coll cid today d h => ?_, fun coll cid today h => ?_,
    fun cid today guid now => ?_⟩
  · rw [App.get_stats, h]
  · rw [App.get_stats, h]
  · rw [IndexPy.get_stats, h]
  · rw [IndexPy.get_stats, h]
  · rw [Worker1.update_daily_stats]
    simp only [CLASS_NAMES_MAP]
    rw [if_neg (by decide)]
    rw [IndexPy.get_stats]
    simp [findOne, upsertFirst, docMatches, Worker1.freshDoc, incCounter]

/-- Claim C6, witness for the amended statement. -/
theorem stats_query_semantics_witness :
    App.get_stats
        (fun k => if k = "x_y" then
          some { camera_id := "x", date := "y", total_car := 2,
                 total_motorcycle := 0, total_bus := 0, total_truck := 0,
                 speeds := [], guid := none, average_speed := none,
                 processed_at := none, created_at := none }
          else none) "x" "y" =
      { total_car := 2, total_motorcycle := 0, total_bus := 0, total_truck := 0,
        average_speed :=
          round2 (if ([] : List ℚ).isEmpty then 0
                  else ([] : List ℚ).sum / ([] : List ℚ).length) }
  ∧ App.get_stats (fun _ => none) "x" "y" = ⟨0, 0, 0, 0, 0⟩ :=
  ⟨stats_query_semantics.1 _ "x" "y" _ rfl,
   stats_query_semantics.2.1 (fun _ => none) "x" "y" rfl⟩

/-- Claim C8: while every open attempt fails, app.py's acquisition loop
(lines 69-75) stays out of streaming forever: after any number n of
iterations it has made exactly n attempts, slept the fixed 10-second backoff
each time (no growth, no cap), recorded no statistics, and not terminated. -/
theorem open_failure_retry_forever (opens : Nat → Bool)
    (h : ∀ n, opens n = false) (n : Nat) :
    (Connect.run opens n).streaming = false
  ∧ (Connect.run opens n).records = 0
  ∧ (Connect.run opens n).attempts = n
  ∧ (Connect.run opens n).sleeps = List.replicate n 10 := by
  induction n with
  | zero => exact ⟨rfl, rfl, rfl, rfl⟩
  | succ n ih =>
    obtain ⟨h1, h2, h3, h4⟩ := ih
    rw [Connect.run, Function.iterate_succ_apply'] at *
    rw [Connect.step, h1, if_neg (by simp), h3, if_neg (by simp [h])]
    refine ⟨rfl, h2, by simp, ?_⟩
    simp only [h4]
    rw [List.replicate_succ']

/-- Claim C8, witness: three consecutive open failures. -/
theorem open_failure_retry_forever_witness :
    (Connect.run (fun _ => false) 3).streaming = false
  ∧ (Connect.run (fun _ => false) 3).records = 0
  ∧ (Connect.run (fun _ => false) 3).attempts = 3
  ∧ (Connect.run (fun _ => false) 3).sleeps = List.replicate 3 10 :=
  open_failure_retry_forever (fun _ => false) (fun _ => rfl) 3

lemma start_all_cons_none (cams : List (Option String)) (R : List String) :
    App.start_all (none :: cams) R = App.start_all cams R := rfl

lemma start_all_cons_some (cid : String) (cams : List (Option String))
    (R : List String) :
    App.start_all (some cid :: cams) R =
      App.start_all cams (if cid ≠ "" ∧ cid ∉ R then R ++ [cid] else R) := rfl

lemma start_all_mem (cams : List (Option String)) (R : List String) (x : String) :
    x ∈ App.start_all cams R ↔ x ∈ R ∨ (some x ∈ cams ∧ x ≠ "") := by
  induction cams generalizing R with
  | nil => simp [App.start_all]
  | cons c cams ih =>
    cases c with
    | none =>
      rw [start_all_cons_none, ih]
      simp
    | some cid =>
      rw [start_all_cons_some]
      by_cases hc : cid ≠ "" ∧ cid ∉ R
      · rw [if_pos hc, ih]
        constructor
        · rintro (hx | ⟨hm, hne⟩)
          · rcases List.mem_append.mp hx with hx | hx
            · exact Or.inl hx
            · have : x = cid := by simpa using hx
              subst this
              exact Or.inr ⟨List.mem_cons_self _ _, hc.1⟩
          · exact Or.inr ⟨List.mem_cons_of_mem _ hm, hne⟩
        · rintro (hx | ⟨hm, hne⟩)
          · exact Or.inl (List.mem_append_left _ hx)
          · rcases List.mem_cons.mp hm with heq | hm'
            · have : x = cid := Option.some.inj heq
              exact Or.inl (List.mem_append_right _ (by simp [this]))
            · exact Or.inr ⟨hm', hne⟩
      · rw [if_neg hc, ih]
        constructor
        · rintro (hx | ⟨hm, hne⟩)
          · exact Or.inl hx
          · exact Or.inr ⟨List.mem_cons_of_mem _ hm, hne⟩
        · rintro (hx | ⟨hm, hne⟩)
          · exact Or.inl hx
          · rcases List.mem_cons.mp hm with heq | hm'
            · have hx : x = cid := Option.some.inj heq
              subst hx
              rcases not_and_or.mp hc with h1 | h2
              · exact absurd (not_not.mp h1) hne
              · exact Or.inl (not_not.mp h2)
            · exact Or.inr ⟨hm', hne⟩

lemma start_all_nodup (cams : List (Option String)) (R : List String)
    (h : R.Nodup) : (App.start_all cams R).Nodup := by
  induction cams generalizing R with
  | nil => exact h
  | cons c cams ih =>
    cases c with
    | none => exact ih R h
    | some cid =>
      rw [start_all_cons_some]
      by_cases hc : cid ≠ "" ∧ cid ∉ R
      · rw [if_pos hc]
        apply ih
        rw [List.nodup_append]
        refine ⟨h, List.nodup_singleton _, fun a ha hb => ?_⟩
        have : a = cid := by simpa using hb
        subst this
        exact hc.2 ha
      · rw [if_neg hc]
        exact ih R h

lemma start_all_eq_self (cams : List (Option String)) (R : List String)
    (h : ∀ cid, some cid ∈ cams → cid ≠ "" → cid ∈ R) :
    App.start_all cams R = R := by
  induction cams generalizing R with
  | nil => rfl
  | cons c cams ih =>
    cases c with
    | none => exact ih R (fun cid hm => h cid (List.mem_cons_of_mem _ hm))
    | some cid =>
      rw [start_all_cons_some]
      have hneg : ¬(cid ≠ "" ∧ cid ∉ R) := by
        rintro ⟨h1, h2⟩
        exact h2 (h cid (List.mem_cons_self _ _) h1)
      rw [if_neg hneg]
      exact ih R (fun c hm hne => h c (List.mem_cons_of_mem _ hm) hne)

/-- Claim C9: app.py's start_all_camera_processing (lines 251-266) over a
duplicate-free registry keeps the registry duplicate-free, is idempotent on
re-invocation, starts exactly the configured truthy camera ids not already
running (an id is in the result iff it was running or configured and
non-empty), and never registers two workers for one camera id. -/
theorem supervisor_start_all_idempotent (cams : List (Option String))
    (running : List String) (h : running.Nodup) :
    (App.start_all cams running).Nodup
  ∧ App.start_all cams (App.start_all cams running) = App.start_all cams running
  ∧ (∀ x, x ∈ App.start_all cams running ↔
        x ∈ running ∨ (some x ∈ cams ∧ x ≠ ""))
  ∧ (∀ x, (App.start_all cams running).count x ≤ 1) := by
  have hnd := start_all_nodup cams running h
  refine ⟨hnd, ?_, fun x => start_all_mem cams running x,
    fun x => List.nodup_iff_count_le_one.mp hnd x⟩
  exact start_all_eq_self cams _
    (fun cid hm hne => (start_all_mem cams running cid).mpr (Or.inr ⟨hm, hne⟩))

/-- Claim C9, witness: a duplicate config, a missing id and an empty id. -/
theorem supervisor_start_all_idempotent_witness :
    (App.start_all [some ("a"), none, some ("a"), some ("")] []).Nodup
  ∧ App.start_all [some ("a"), none, some ("a"), some ("")]
      (App.start_all [some ("a"), none, some ("a"), some ("")] []) =
      App.start_all [some ("a"), none, some ("a"), some ("")] []
  ∧ (App.start_all [some ("a"), none, some ("a"), some ("")] []).count ("a") ≤ 1 :=
  ⟨(supervisor_start_all_idempotent [some ("a"), none, some ("a"), some ("")] []
      List.nodup_nil).1,
   (supervisor_start_all_idempotent [some ("a"), none, some ("a"), some ("")] []
      List.nodup_nil).2.1,
   (supervisor_start_all_idempotent [some ("a"), none, some ("a"), some ("")] []
      List.nodup_nil).2.2.2 "a"⟩

lemma upsertFirst_middle (p : StatsDoc → Bool) (f : StatsDoc → StatsDoc)
    (ins d : StatsDoc) (pre post : List StatsDoc)
    (hpre : ∀ d' ∈ pre, p d' = false) (hd : p d = true) :
    upsertFirst p f ins (pre ++ d :: post) = pre ++ f d :: post := by
  induction pre with
  | nil => simp [upsertFirst, hd]
  | cons a pre ih =>
    have ha : p a = false := hpre a (List.mem_cons_self _ _)
    simp only [List.cons_append, upsertFirst, ha, Bool.false_eq_true, if_false,
      List.cons.injEq, true_and]
    exact ih (fun d' hm => hpre d' (List.mem_cons_of_mem _ hm))

lemma upsertFirst_nomatch (p : StatsDoc → Bool) (f : StatsDoc → StatsDoc)
    (ins : StatsDoc) (coll : List StatsDoc)
    (h : ∀ d' ∈ coll, p d' = false) :
    upsertFirst p f ins coll = coll ++ [ins] := by
  induction coll with
  | nil => rfl
  | cons a coll ih =>
    have ha : p a = false := h a (List.mem_cons_self _ _)
    simp only [upsertFirst, ha, Bool.false_eq_true, if_false, List.cons_append,
      List.cons.injEq, true_and]
    exact ih (fun d' hm => h d' (List.mem_cons_of_mem _ hm))

/-- Claim C10: the frame effect of one record call.  For an unmonitored class
both writers return the store untouched (early return before any command).
For a monitored class, app.py's single command is rejected by the store (no
document produced or changed — claim C1), while worker1.py's accepted command
touches exactly the first document matching (camera_id, today) — replacing it
by the same document with that one counter incremented, every other field and
every other document verbatim — or, with no match, appends exactly the one
freshly initialised document. -/
theorem record_frame_effect (store : App.Store) (coll : List StatsDoc)
    (cid today guid : String) (now spd : ℚ) (classId : Nat) :
    (CLASS_NAMES_MAP classId = none →
        App.update_daily_stats store cid today classId spd now = Except.ok store
      ∧ Worker1.update_daily_stats coll cid today guid now classId = coll)
  ∧ (∀ v, CLASS_NAMES_MAP classId = some v →
        App.update_daily_stats store cid today classId spd now =
          Except.error (conflictMsg ("total_" ++ vClassName v)))
  ∧ (∀ v d pre post, CLASS_NAMES_MAP classId = some v →
        coll = pre ++ d :: post →
        (∀ d' ∈ pre, docMatches cid today d' = false) →
        docMatches cid today d = true →
        Worker1.update_daily_stats coll cid today guid now classId =
          pre ++ incCounter d v :: post)
  ∧ (∀ v, CLASS_NAMES_MAP classId = some v →
        (∀ d' ∈ coll, docMatches cid today d' = false) →
        Worker1.update_daily_stats coll cid today guid now classId =
          coll ++ [Worker1.freshDoc guid cid today now v])
  ∧ (∀ (d : StatsDoc) (v : VClass),
        counterOf (incCounter d v) v = counterOf d v + 1
      ∧ (∀ w, w ≠ v → counterOf (incCounter d v) w = counterOf d w)
      ∧ (incCounter d v).speeds = d.speeds
      ∧ (incCounter d v).camera_id = d.camera_id
      ∧ (incCounter d v).date = d.date
      ∧ (incCounter d v).guid = d.guid
      ∧ (incCounter d v).average_speed = d.average_speed
      ∧ (incCounter d v).processed_at = d.processed_at
      ∧ (incCounter d v).created_at = d.created_at) := by
  refine ⟨fun h => ?_, fun v h => ?_, fun v d pre post h hcoll hpre hd => ?_,
    fun v h hno => ?_, fun d v => ?_⟩
  · constructor
    · simp [App.update_daily_stats, h]
    · simp [Worker1.update_daily_stats, h]
  · cases v <;>
      simp [App.update_daily_stats, h, App.soiFields, vClassName, conflictMsg]
  · subst hcoll
    cases v <;>
      (simp only [Worker1.update_daily_stats, h]
       rw [if_neg (by decide)]
       exact upsertFirst_middle _ _ _ _ _ _ hpre hd)
  · cases v <;>
      (simp only [Worker1.update_daily_stats, h]
       rw [if_neg (by decide)]
       exact upsertFirst_nomatch _ _ _ _ hno)
  · cases v <;>
      refine ⟨rfl, fun w hw => ?_, rfl, rfl, rfl, rfl, rfl, rfl, rfl⟩ <;>
      cases w <;> first | rfl | exact absurd rfl hw

/-- Claim C10, witness: an existing matching document and an unmonitored
class. -/
theorem record_frame_effect_witness :
    Worker1.update_daily_stats
        [{ camera_id := "c", date := "d", total_car := 5, total_motorcycle := 0,
           total_bus := 0, total_truck := 0, speeds := [], guid := none,
           average_speed := none, processed_at := none, created_at := none }]
        "c" "d" "g" 0 2 =
      [incCounter
        { camera_id := "c", date := "d", total_car := 5, total_motorcycle := 0,
          total_bus := 0, total_truck := 0, speeds := [], guid := none,
          average_speed := none, processed_at := none, created_at := none }
        VClass.car]
  ∧ App.update_daily_stats (fun _ => none) "c" "d" 0 0 0 =
      Except.ok (fun _ => none) :=
  ⟨(record_frame_effect (fun _ => none)
      [{ camera_id := "c", date := "d", total_car := 5, total_motorcycle := 0,
         total_bus := 0, total_truck := 0, speeds := [], guid := none,
         average_speed := none, processed_at := none, created_at := none }]
      "c" "d" "g" 0 0 2).2.2.1 VClass.car
      { camera_id := "c", date := "d", total_car := 5, total_motorcycle := 0,
        total_bus := 0, total_truck := 0, speeds := [], guid := none,
        average_speed := none, processed_at := none, created_at := none }
      [] [] rfl rfl (by simp) (by decide),
   ((record_frame_effect (fun _ => none)
      [{ camera_id := "c", date := "d", total_car := 5, total_motorcycle := 0,
         total_bus := 0, total_truck := 0, speeds := [], guid := none,
         average_speed := none, processed_at := none, created_at := none }]
      "c" "d" "g" 0 0 0).1 rfl).1⟩


